import Mathlib

/-!
Shallow embedding of the greensim backend job-lifecycle core
(backend/main.go): simulation parameter defaulting, the POST /simulate
submission handler, the GET /results/:job_id status resolver, the
GET /jobs/:job_id metadata handler, and the bounded recency index.

Modelling conventions:
* Go `*float64` optional fields become `Option Rat`; `applyDefaults`
  performs no arithmetic, so the exact numeric representation is
  irrelevant and `Rat` keeps every literal exact and decidable.
* Redis reads are modelled by their outcome (`RedisRead`): a value,
  the distinguished absent result (redis.Nil), or a store error.
  Redis writes are modelled by their outcome (`WriteResult`).
* `json.Unmarshal` of library code is abstracted as a decoding
  function passed as a parameter (`String to Option _`); `none`
  models a decode error, in which case Go leaves the target at its
  zero value, modelled by `Option.getD` with the zero record.
-/

namespace Greensim

/-- Job status constants from backend/main.go. -/
def StatusQueued : String := "queued"

/-- Job status constant for a running job. -/
def StatusRunning : String := "running"

/-- Job status constant for a completed job. -/
def StatusDone : String := "done"

/-- Job status constant for a failed job. -/
def StatusError : String := "error"

/-- How many recent job IDs the recency index retains (backend/main.go). -/
def RecentJobsMaxRetain : Nat := 100

/-- The optional simulation parameters, mirroring the Go struct
`SimulationParams` in backend/main.go: every physics field is a
nullable pointer (`Option`), the two date fields are plain strings
whose zero value is the empty string. -/
structure SimulationParams where
  ThermalMass : Option Rat
  ThermalMassKg : Option Rat
  CpMass : Option Rat
  VentilationRate : Option Rat
  U_day : Option Rat
  U_night : Option Rat
  A_glass : Option Rat
  tau_glass : Option Rat
  ACH : Option Rat
  Volume : Option Rat
  C : Option Rat
  T_init : Option Rat
  Setpoint : Option Rat
  Lat : Option Rat
  Lon : Option Rat
  StartDate : String
  EndDate : String
  HeaterMaxW : Option Rat
  EvapRate : Option Rat
  FractionSolarAir : Option Rat
deriving DecidableEq, Repr

attribute [ext] SimulationParams

/-- A request with every optional field unset and empty dates
(the Go zero value of `SimulationParams`). -/
def emptyParams : SimulationParams :=
  { ThermalMass := none, ThermalMassKg := none, CpMass := none,
    VentilationRate := none, U_day := none, U_night := none,
    A_glass := none, tau_glass := none, ACH := none, Volume := none,
    C := none, T_init := none, Setpoint := none, Lat := none,
    Lon := none, StartDate := "", EndDate := "", HeaterMaxW := none,
    EvapRate := none, FractionSolarAir := none }

/-- One nil-check of `applyDefaults`: `if v == nil { v = &d }`,
as a value-level function on the optional field. -/
def orDefault (v : Option Rat) (d : Rat) : Option Rat :=
  if v.isNone then some d else v

/-- Translation of `applyDefaults` (backend/main.go): a sequence of
nil-checks, each setting one unset field to a fixed default; each Go
statement `if p.X == nil ... p.X = &def` is rendered as the update of
the single field `X` it assigns. `C` receives its default only when
both `C` and `ThermalMassKg` are nil; `Lat` and `Lon` (and the other
fields without a default) are left untouched. -/
def applyDefaults (p : SimulationParams) : SimulationParams :=
  let p := { p with A_glass := orDefault p.A_glass 50 }
  let p := { p with tau_glass := orDefault p.tau_glass (17/20) }
  let p := { p with U_day := orDefault p.U_day 3 }
  let p := { p with U_night := orDefault p.U_night (3/5) }
  let p := { p with ACH := orDefault p.ACH (1/2) }
  let p := { p with Volume := orDefault p.Volume 100 }
  let p := { p with C := if p.C.isNone && p.ThermalMassKg.isNone then some 20000000 else p.C }
  let p := { p with CpMass := orDefault p.CpMass 4186 }
  let p := { p with T_init := orDefault p.T_init 15 }
  let p := { p with Setpoint := orDefault p.Setpoint 12 }
  let p := { p with HeaterMaxW := orDefault p.HeaterMaxW 5000 }
  let p := { p with FractionSolarAir := orDefault p.FractionSolarAir (1/2) }
  p

theorem orDefault_getD (v : Option Rat) (d : Rat) :
    orDefault v d = some (v.getD d) := by
  cases v <;> simp [orDefault]

theorem orDefault_some (v : Rat) (d : Rat) :
    orDefault (some v) d = some v := by
  simp [orDefault]

theorem applyDefaults_A_glass (p : SimulationParams) :
    (applyDefaults p).A_glass = orDefault p.A_glass 50 := rfl

theorem applyDefaults_tau_glass (p : SimulationParams) :
    (applyDefaults p).tau_glass = orDefault p.tau_glass (17/20) := rfl

theorem applyDefaults_U_day (p : SimulationParams) :
    (applyDefaults p).U_day = orDefault p.U_day 3 := rfl

theorem applyDefaults_U_night (p : SimulationParams) :
    (applyDefaults p).U_night = orDefault p.U_night (3/5) := rfl

theorem applyDefaults_ACH (p : SimulationParams) :
    (applyDefaults p).ACH = orDefault p.ACH (1/2) := rfl

theorem applyDefaults_Volume (p : SimulationParams) :
    (applyDefaults p).Volume = orDefault p.Volume 100 := rfl

theorem applyDefaults_C (p : SimulationParams) :
    (applyDefaults p).C =
      if p.C.isNone && p.ThermalMassKg.isNone then some 20000000 else p.C := rfl

theorem applyDefaults_CpMass (p : SimulationParams) :
    (applyDefaults p).CpMass = orDefault p.CpMass 4186 := rfl

theorem applyDefaults_T_init (p : SimulationParams) :
    (applyDefaults p).T_init = orDefault p.T_init 15 := rfl

theorem applyDefaults_Setpoint (p : SimulationParams) :
    (applyDefaults p).Setpoint = orDefault p.Setpoint 12 := rfl

theorem applyDefaults_HeaterMaxW (p : SimulationParams) :
    (applyDefaults p).HeaterMaxW = orDefault p.HeaterMaxW 5000 := rfl

theorem applyDefaults_FractionSolarAir (p : SimulationParams) :
    (applyDefaults p).FractionSolarAir = orDefault p.FractionSolarAir (1/2) := rfl

theorem applyDefaults_ThermalMass (p : SimulationParams) :
    (applyDefaults p).ThermalMass = p.ThermalMass := rfl

theorem applyDefaults_ThermalMassKg (p : SimulationParams) :
    (applyDefaults p).ThermalMassKg = p.ThermalMassKg := rfl

theorem applyDefaults_VentilationRate (p : SimulationParams) :
    (applyDefaults p).VentilationRate = p.VentilationRate := rfl

theorem applyDefaults_EvapRate (p : SimulationParams) :
    (applyDefaults p).EvapRate = p.EvapRate := rfl

theorem applyDefaults_Lat (p : SimulationParams) :
    (applyDefaults p).Lat = p.Lat := rfl

theorem applyDefaults_Lon (p : SimulationParams) :
    (applyDefaults p).Lon = p.Lon := rfl

theorem applyDefaults_StartDate (p : SimulationParams) :
    (applyDefaults p).StartDate = p.StartDate := rfl

theorem applyDefaults_EndDate (p : SimulationParams) :
    (applyDefaults p).EndDate = p.EndDate := rfl

/-- Metadata stored in Redis for each job (Go struct `JobMeta`);
timestamps are abstracted to naturals. -/
structure JobMeta where
  JobID : String
  Status : String
  CreatedAt : Nat
  UpdatedAt : Nat
  Params : SimulationParams
  Error : String
  ResultKey : String
deriving DecidableEq, Repr

/-- The Go zero value of `JobMeta`, which `json.Unmarshal` leaves in
place when decoding fails and the caller ignores the error. -/
def emptyJobMeta : JobMeta :=
  { JobID := "", Status := "", CreatedAt := 0, UpdatedAt := 0,
    Params := emptyParams, Error := "", ResultKey := "" }

/-- Job payload pushed to the Redis queue (Go struct `JobPayload`). -/
structure JobPayload where
  JobID : String
  CreatedAt : Nat
  Params : SimulationParams
deriving DecidableEq, Repr

/-- Outcome of a Redis write (`.Err()` of RPush / Set / LPush). -/
inductive WriteResult where
  | ok : WriteResult
  | err (msg : String) : WriteResult
deriving DecidableEq, Repr

/-- Outcome of a Redis read (`.Result()` of Get / LRange): a value,
the distinguished absent result redis.Nil, or a store error. -/
inductive RedisRead where
  | found (s : String) : RedisRead
  | nil : RedisRead
  | errRead (e : String) : RedisRead
deriving DecidableEq, Repr

/-- True when the read failed with an error other than absence. -/
def RedisRead.isError : RedisRead → Bool
  | .errRead _ => true
  | _ => false

/-- True when the read returned a value. -/
def RedisRead.isFound : RedisRead → Bool
  | .found _ => true
  | _ => false

/-- The Redis state touched by the backend: the FIFO job queue, the
per-job metadata records (keyed by job id) and the recency list. -/
structure Store where
  jobs : List JobPayload
  metas : List (String × JobMeta)
  recent : List String
deriving DecidableEq, Repr

/-- The empty store. -/
def emptyStore : Store := { jobs := [], metas := [], recent := [] }

/-- Redis LPUSH: insert at the head of the list. -/
def lpush (l : List String) (x : String) : List String := x :: l

/-- Redis LTRIM with non-negative bounds: keep the elements whose
index lies between start and stop, inclusive. -/
def ltrim (l : List String) (start stop : Nat) : List String :=
  (l.drop start).take (stop + 1 - start)

/-- Redis LRANGE with non-negative bounds: the elements whose index
lies between start and stop, inclusive. -/
def lrange (l : List String) (start stop : Nat) : List String :=
  (l.drop start).take (stop + 1 - start)

/-- The recency-index insertion performed by the submission handler:
`LPush(recent, id)` followed by `LTrim(recent, 0, RecentJobsMaxRetain-1)`
(backend/main.go lines 277-279). -/
def pushRecent (l : List String) (id : String) : List String :=
  ltrim (lpush l id) 0 (RecentJobsMaxRetain - 1)

/-- The recent-jobs listing read by GET /results:
`LRange(recent_simulation_ids, 0, 49)` (backend/main.go line 326). -/
def listRecent (l : List String) : List String := lrange l 0 49

/-- The outcomes the store hands back to the three writes issued by
one submission: the queue RPush, the metadata Set, the recency LPush. -/
structure RedisWrites where
  enqueue : WriteResult
  metaSet : WriteResult
  recentPush : WriteResult
deriving DecidableEq, Repr

/-- Response body of POST /simulate. -/
inductive SimulateBody where
  | accepted (job_id status : String) : SimulateBody
  | errorBody (msg : String) : SimulateBody
deriving DecidableEq, Repr

/-- Result of one run of the POST /simulate handler: HTTP status,
response body, and the store as left behind by the handler. -/
structure SimulateResult where
  status : Nat
  body : SimulateBody
  store : Store
deriving DecidableEq, Repr

/-- Translation of the POST /simulate handler (backend/main.go lines
228-285), after a successful BindJSON, parameterised by the fresh id,
the timestamp and the outcome of each Redis write: apply defaults,
build the payload, RPush it onto the queue (a failure aborts with 500
and writes nothing), then best-effort Set the metadata record and
best-effort LPush(+LTrim) the id onto the recency list, and reply
202 with the job id and status queued. -/
def simulateHandler (st : Store) (jobID : String) (now : Nat)
    (params0 : SimulationParams) (w : RedisWrites) : SimulateResult :=
  let params := applyDefaults params0
  let payload : JobPayload := { JobID := jobID, CreatedAt := now, Params := params }
  match w.enqueue with
  | .err e =>
      { status := 500, body := .errorBody ("failed to enqueue job: " ++ e), store := st }
  | .ok =>
      let st1 : Store := { st with jobs := st.jobs ++ [payload] }
      let meta : JobMeta :=
        { JobID := jobID, Status := StatusQueued, CreatedAt := now,
          UpdatedAt := now, Params := params, Error := "",
          ResultKey := "job_result:" ++ jobID }
      let st2 : Store :=
        match w.metaSet with
        | .ok => { st1 with metas := (jobID, meta) :: st1.metas }
        | .err _ => st1
      let st3 : Store :=
        match w.recentPush with
        | .ok => { st2 with recent := pushRecent st2.recent jobID }
        | .err _ => st2
      { status := 202, body := .accepted jobID StatusQueued, store := st3 }

/-- Response body of GET /results/:job_id, parameterised by the type
of parsed JSON documents. -/
inductive ResultBody (J : Type) where
  | statusBody (job_id status : String) : ResultBody J
  | doneParsed (job_id status : String) (result : J) : ResultBody J
  | doneRaw (job_id status : String) (result : String) : ResultBody J
  | errorBody (msg : String) : ResultBody J
deriving DecidableEq, Repr

/-- Translation of the GET /results/:job_id handler (backend/main.go
lines 288-320), parameterised by the JSON decoder for result blobs,
the JobMeta decoder, and the two Redis read outcomes: if the result
Get hits redis.Nil, fall back to the metadata Get (a found record is
decoded with the error ignored and its status reported; anything
else is 404); a result-Get store error is 500; a found result blob is
reported as status done, parsed when the decoder succeeds, raw
otherwise. -/
def resultsHandler (J : Type) (decodeJson : String → Option J)
    (decodeMeta : String → Option JobMeta) (jobID : String)
    (resRead metaRead : RedisRead) : Nat × ResultBody J :=
  match resRead with
  | .nil =>
      match metaRead with
      | .found ms =>
          let meta := (decodeMeta ms).getD emptyJobMeta
          (200, .statusBody jobID meta.Status)
      | _ => (404, .errorBody "no result or job not found")
  | .errRead e => (500, .errorBody ("redis error: " ++ e))
  | .found res =>
      match decodeJson res with
      | some parsed => (200, .doneParsed jobID StatusDone parsed)
      | none => (200, .doneRaw jobID StatusDone res)

/-- Response body of GET /jobs/:job_id. -/
inductive JobsBody where
  | metaBody (m : JobMeta) : JobsBody
  | errorBody (msg : String) : JobsBody
deriving DecidableEq, Repr

/-- Translation of the GET /jobs/:job_id handler (backend/main.go
lines 335-353): redis.Nil is 404, a store error is 500, a found
record that fails to decode is 500, otherwise the decoded metadata is
returned verbatim with 200. -/
def jobsHandler (decodeMeta : String → Option JobMeta) (_jobID : String)
    (metaRead : RedisRead) : Nat × JobsBody :=
  match metaRead with
  | .nil => (404, .errorBody "job not found")
  | .errRead e => (500, .errorBody ("redis error: " ++ e))
  | .found s =>
      match decodeMeta s with
      | none => (500, .errorBody "failed to parse job meta")
      | some m => (200, .metaBody m)

/-!  Claim theorems. -/

/-- C1: for every submission request, if the enqueue write fails, the
submission handler returns a backend error (HTTP 500) and performs no
further state writes: neither the metadata record nor the recency
index is written (the whole store is left untouched). -/
theorem simulate_enqueue_failure_aborts (st : Store) (jobID : String)
    (now : Nat) (p : SimulationParams) (w : RedisWrites) (e : String)
    (h : w.enqueue = WriteResult.err e) :
    (simulateHandler st jobID now p w).status = 500 ∧
    (simulateHandler st jobID now p w).body
      = SimulateBody.errorBody ("failed to enqueue job: " ++ e) ∧
    (simulateHandler st jobID now p w).store = st := by
  simp [simulateHandler, h]

/-- Witness for C1 at a concrete input: the enqueue write fails with
message boom, the handler answers 500 and leaves the store as it was. -/
theorem simulate_enqueue_failure_aborts_witness :
    (⟨WriteResult.err "boom", WriteResult.ok, WriteResult.ok⟩ : RedisWrites).enqueue
        = WriteResult.err "boom" ∧
    ((simulateHandler emptyStore "job-1" 0 emptyParams
        ⟨WriteResult.err "boom", WriteResult.ok, WriteResult.ok⟩).status = 500 ∧
      (simulateHandler emptyStore "job-1" 0 emptyParams
        ⟨WriteResult.err "boom", WriteResult.ok, WriteResult.ok⟩).body
          = SimulateBody.errorBody ("failed to enqueue job: " ++ "boom") ∧
      (simulateHandler emptyStore "job-1" 0 emptyParams
        ⟨WriteResult.err "boom", WriteResult.ok, WriteResult.ok⟩).store = emptyStore) :=
  ⟨rfl, simulate_enqueue_failure_aborts emptyStore "job-1" 0 emptyParams
      ⟨WriteResult.err "boom", WriteResult.ok, WriteResult.ok⟩ "boom" rfl⟩

/-- C2: for every submission request whose enqueue write succeeds, the
handler returns HTTP 202 with body job_id = the fresh id and status
queued, for every outcome of the subsequent metadata write and
recency-index push: those two failures never change the response. -/
theorem simulate_enqueue_success_accepted (st : Store) (jobID : String)
    (now : Nat) (p : SimulationParams) (w : RedisWrites)
    (h : w.enqueue = WriteResult.ok) :
    (simulateHandler st jobID now p w).status = 202 ∧
    (simulateHandler st jobID now p w).body
      = SimulateBody.accepted jobID StatusQueued := by
  simp [simulateHandler, h]

/-- Witness for C2 at a concrete input where both the metadata write
and the recency push fail: the response is still 202 queued. -/
theorem simulate_enqueue_success_accepted_witness :
    (⟨WriteResult.ok, WriteResult.err "meta down", WriteResult.err "recent down"⟩
        : RedisWrites).enqueue = WriteResult.ok ∧
    ((simulateHandler emptyStore "job-2" 7 emptyParams
        ⟨WriteResult.ok, WriteResult.err "meta down", WriteResult.err "recent down"⟩).status
          = 202 ∧
      (simulateHandler emptyStore "job-2" 7 emptyParams
        ⟨WriteResult.ok, WriteResult.err "meta down", WriteResult.err "recent down"⟩).body
          = SimulateBody.accepted "job-2" StatusQueued) :=
  ⟨rfl, simulate_enqueue_success_accepted emptyStore "job-2" 7 emptyParams
      ⟨WriteResult.ok, WriteResult.err "meta down", WriteResult.err "recent down"⟩ rfl⟩

/-- C7: the recency index never exceeds the fixed capacity
RecentJobsMaxRetain = 100: the head push followed by the trim keeps
the list at no more than 100 entries, and hence after any submission
whose enqueue and recency push succeed, the stored recency list has
length at most 100. -/
theorem recency_index_bounded :
    (∀ (l : List String) (id : String),
        (pushRecent l id).length ≤ RecentJobsMaxRetain) ∧
    (∀ (st : Store) (jobID : String) (now : Nat) (p : SimulationParams)
        (w : RedisWrites), w.enqueue = WriteResult.ok →
        w.recentPush = WriteResult.ok →
        (simulateHandler st jobID now p w).store.recent.length
          ≤ RecentJobsMaxRetain) := by
  have hb : ∀ (l : List String) (id : String),
      (pushRecent l id).length ≤ RecentJobsMaxRetain := by
    intro l id
    simp only [pushRecent, ltrim, lpush, RecentJobsMaxRetain,
      List.drop_zero, List.length_take]
    omega
  refine ⟨hb, ?_⟩
  intro st jobID now p w h1 h2
  cases hm : w.metaSet <;>
    simp [simulateHandler, h1, h2, hm] <;> exact hb _ _

/-- Witness for C7 at a concrete input: pushing onto a recency list
that already holds 100 entries, through a successful submission,
leaves at most 100 entries. -/
theorem recency_index_bounded_witness :
    (pushRecent (List.replicate 100 "old") "new").length ≤ RecentJobsMaxRetain ∧
    (⟨WriteResult.ok, WriteResult.ok, WriteResult.ok⟩ : RedisWrites).enqueue
        = WriteResult.ok ∧
    (⟨WriteResult.ok, WriteResult.ok, WriteResult.ok⟩ : RedisWrites).recentPush
        = WriteResult.ok ∧
    (simulateHandler { emptyStore with recent := List.replicate 100 "old" }
        "job-3" 0 emptyParams
        ⟨WriteResult.ok, WriteResult.ok, WriteResult.ok⟩).store.recent.length
      ≤ RecentJobsMaxRetain :=
  ⟨recency_index_bounded.1 (List.replicate 100 "old") "new", rfl, rfl,
    recency_index_bounded.2 { emptyStore with recent := List.replicate 100 "old" }
      "job-3" 0 emptyParams
      ⟨WriteResult.ok, WriteResult.ok, WriteResult.ok⟩ rfl rfl⟩

/-- C3: the result query resolves in order: a found result blob is
reported as status done, parsed as JSON when parsing succeeds and as
the raw text otherwise; with no blob but a metadata record that
decodes, the record's status field is reported; with neither, the
query reports not found. -/
theorem results_resolution_order (J : Type) (dj : String → Option J)
    (dm : String → Option JobMeta) (id : String) :
    (∀ (mr : RedisRead) (s : String) (v : J), dj s = some v →
        resultsHandler J dj dm id (RedisRead.found s) mr
          = (200, ResultBody.doneParsed id StatusDone v)) ∧
    (∀ (mr : RedisRead) (s : String), dj s = none →
        resultsHandler J dj dm id (RedisRead.found s) mr
          = (200, ResultBody.doneRaw id StatusDone s)) ∧
    (∀ (ms : String) (m : JobMeta), dm ms = some m →
        resultsHandler J dj dm id RedisRead.nil (RedisRead.found ms)
          = (200, ResultBody.statusBody id m.Status)) ∧
    resultsHandler J dj dm id RedisRead.nil RedisRead.nil
      = (404, ResultBody.errorBody "no result or job not found") := by
  refine ⟨?_, ?_, ?_, ?_⟩ <;> intros <;> simp [resultsHandler, *]

/-- Concrete JSON decoder used by the C3 witness: exactly the blob
ok-blob parses, to the document parsed. -/
def djW : String → Option String :=
  fun s => if s = "ok-blob" then some "parsed" else none

/-- Concrete metadata decoder used by the C3 witness: exactly the
record meta-blob decodes, to a record with status queued. -/
def dmW : String → Option JobMeta :=
  fun s => if s = "meta-blob"
    then some { emptyJobMeta with JobID := "job-4", Status := StatusQueued }
    else none

/-- Witness for C3 at concrete inputs covering all four cases of the
resolution order. -/
theorem results_resolution_order_witness :
    djW "ok-blob" = some "parsed" ∧
    resultsHandler String djW dmW "job-4" (RedisRead.found "ok-blob") RedisRead.nil
      = (200, ResultBody.doneParsed "job-4" StatusDone "parsed") ∧
    djW "raw-blob" = none ∧
    resultsHandler String djW dmW "job-4" (RedisRead.found "raw-blob") RedisRead.nil
      = (200, ResultBody.doneRaw "job-4" StatusDone "raw-blob") ∧
    dmW "meta-blob"
      = some { emptyJobMeta with JobID := "job-4", Status := StatusQueued } ∧
    resultsHandler String djW dmW "job-4" RedisRead.nil (RedisRead.found "meta-blob")
      = (200, ResultBody.statusBody "job-4" StatusQueued) ∧
    resultsHandler String djW dmW "job-4" RedisRead.nil RedisRead.nil
      = (404, ResultBody.errorBody "no result or job not found") := by
  obtain ⟨h1, h2, h3, h4⟩ := results_resolution_order String djW dmW "job-4"
  refine ⟨by decide, h1 RedisRead.nil "ok-blob" "parsed" (by decide),
    by decide, h2 RedisRead.nil "raw-blob" (by decide),
    by decide, ?_, h4⟩
  exact h3 "meta-blob" { emptyJobMeta with JobID := "job-4", Status := StatusQueued }
    (by decide)

/-- C4 (amended): the result query returns 500 exactly when the
initial result read fails with an error other than absence, and 404
exactly when the result blob is absent and the fallback metadata read
returns anything but a value — a store error on the fallback metadata
read therefore yields 404, not 500. -/
theorem results_status_codes (J : Type) (dj : String → Option J)
    (dm : String → Option JobMeta) (id : String) (rr mr : RedisRead) :
    ((resultsHandler J dj dm id rr mr).1 = 500 ↔ rr.isError = true) ∧
    ((resultsHandler J dj dm id rr mr).1 = 404
      ↔ (rr = RedisRead.nil ∧ mr.isFound = false)) := by
  cases rr with
  | found s =>
      cases h : dj s <;> cases mr <;>
        simp [resultsHandler, RedisRead.isError, RedisRead.isFound, h]
  | nil =>
      cases mr <;>
        simp [resultsHandler, RedisRead.isError, RedisRead.isFound]
  | errRead e =>
      cases mr <;>
        simp [resultsHandler, RedisRead.isError, RedisRead.isFound]

/-- Counterexample to C4 as stated: with the result blob absent and
the fallback metadata read failing with a store error (not absence),
the handler answers 404, not 500. -/
theorem results_fallback_meta_error_404 :
    (resultsHandler Unit (fun _ => none) (fun _ => none) "job-5"
        RedisRead.nil (RedisRead.errRead "connection refused")).1 = 404 ∧
    ¬ ((resultsHandler Unit (fun _ => none) (fun _ => none) "job-5"
        RedisRead.nil (RedisRead.errRead "connection refused")).1 = 500) := by
  exact ⟨rfl, by decide⟩

/-- C10: for every job id whose metadata record exists in the store
but fails to decode as a JobMeta document, GET /jobs answers 500 with
an error body, not the stored record and not 404. -/
theorem jobs_meta_parse_failure_500 (dm : String → Option JobMeta)
    (id s : String) (h : dm s = none) :
    jobsHandler dm id (RedisRead.found s)
      = (500, JobsBody.errorBody "failed to parse job meta") := by
  simp [jobsHandler, h]

/-- Witness for C10 at a concrete input: a stored record that the
decoder rejects makes GET /jobs answer 500. -/
theorem jobs_meta_parse_failure_500_witness :
    (fun _ : String => (none : Option JobMeta)) "not json" = none ∧
    jobsHandler (fun _ => none) "job-6" (RedisRead.found "not json")
      = (500, JobsBody.errorBody "failed to parse job meta") :=
  ⟨rfl, jobs_meta_parse_failure_500 (fun _ => none) "job-6" "not json" rfl⟩

/-- The round-trip request from the spec: only lat, lon, start_date
and end_date are supplied (41.8781 and -87.6298 written exactly). -/
def exampleRequest : SimulationParams :=
  { emptyParams with
    Lat := some (418781/10000)
    Lon := some (-876298/10000)
    StartDate := "2025-11-01"
    EndDate := "2025-11-02" }

/-- A request with every field supplied, used as witness input. -/
def fullParams : SimulationParams :=
  { ThermalMass := some 1, ThermalMassKg := some 2, CpMass := some 3,
    VentilationRate := some 4, U_day := some 5, U_night := some 6,
    A_glass := some 7, tau_glass := some 8, ACH := some 9, Volume := some 10,
    C := some 11, T_init := some 12, Setpoint := some 13, Lat := some 14,
    Lon := some 15, StartDate := "2025-01-01", EndDate := "2025-01-02",
    HeaterMaxW := some 16, EvapRate := some 17, FractionSolarAir := some 18 }

/-- Counterexample to C5 as stated: default-filling does not fill
every unset field — on the spec's own round-trip request, the unset
thermal_mass field is still unset after default-filling (only the
fields with a documented default receive one), while the supplied lat
is preserved exactly. -/
theorem applyDefaults_leaves_some_fields_unset :
    exampleRequest.ThermalMass = none ∧
    (applyDefaults exampleRequest).ThermalMass = none ∧
    exampleRequest.Lat = some (418781/10000) ∧
    (applyDefaults exampleRequest).Lat = some (418781/10000) :=
  ⟨rfl, rfl, rfl, rfl⟩

/-- C5 (amended): default-filling is a pure total function that fills
every unset field having a documented default (A_glass, tau_glass,
U_day, U_night, ACH, V, CpMass, T_init, Setpoint, HeaterMaxW,
FractionSolarAir, and C when thermal_mass_kg is also unset) with that
default, never changes a caller-supplied value, and leaves the
remaining fields untouched; on the spec's round-trip request the
submitted lat is kept exactly and the unset defaulted fields get
A_glass = 50, U_day = 3, ACH = 1/2. -/
theorem applyDefaults_fills_documented_defaults (p : SimulationParams) :
    (applyDefaults p).A_glass = some (p.A_glass.getD 50) ∧
    (applyDefaults p).tau_glass = some (p.tau_glass.getD (17/20)) ∧
    (applyDefaults p).U_day = some (p.U_day.getD 3) ∧
    (applyDefaults p).U_night = some (p.U_night.getD (3/5)) ∧
    (applyDefaults p).ACH = some (p.ACH.getD (1/2)) ∧
    (applyDefaults p).Volume = some (p.Volume.getD 100) ∧
    (applyDefaults p).CpMass = some (p.CpMass.getD 4186) ∧
    (applyDefaults p).T_init = some (p.T_init.getD 15) ∧
    (applyDefaults p).Setpoint = some (p.Setpoint.getD 12) ∧
    (applyDefaults p).HeaterMaxW = some (p.HeaterMaxW.getD 5000) ∧
    (applyDefaults p).FractionSolarAir = some (p.FractionSolarAir.getD (1/2)) ∧
    (applyDefaults p).C
      = (if p.C.isNone && p.ThermalMassKg.isNone then some 20000000 else p.C) ∧
    (applyDefaults p).Lat = p.Lat ∧
    (applyDefaults p).Lon = p.Lon ∧
    (applyDefaults p).StartDate = p.StartDate ∧
    (applyDefaults p).EndDate = p.EndDate ∧
    (applyDefaults p).ThermalMass = p.ThermalMass ∧
    (applyDefaults p).ThermalMassKg = p.ThermalMassKg ∧
    (applyDefaults p).VentilationRate = p.VentilationRate ∧
    (applyDefaults p).EvapRate = p.EvapRate ∧
    (applyDefaults exampleRequest).Lat = some (418781/10000) ∧
    (applyDefaults exampleRequest).A_glass = some 50 ∧
    (applyDefaults exampleRequest).U_day = some 3 ∧
    (applyDefaults exampleRequest).ACH = some (1/2) :=
  ⟨(applyDefaults_A_glass p).trans (orDefault_getD _ _),
    (applyDefaults_tau_glass p).trans (orDefault_getD _ _),
    (applyDefaults_U_day p).trans (orDefault_getD _ _),
    (applyDefaults_U_night p).trans (orDefault_getD _ _),
    (applyDefaults_ACH p).trans (orDefault_getD _ _),
    (applyDefaults_Volume p).trans (orDefault_getD _ _),
    (applyDefaults_CpMass p).trans (orDefault_getD _ _),
    (applyDefaults_T_init p).trans (orDefault_getD _ _),
    (applyDefaults_Setpoint p).trans (orDefault_getD _ _),
    (applyDefaults_HeaterMaxW p).trans (orDefault_getD _ _),
    (applyDefaults_FractionSolarAir p).trans (orDefault_getD _ _),
    applyDefaults_C p, rfl, rfl, rfl, rfl, rfl, rfl, rfl, rfl,
    rfl, rfl, rfl, rfl⟩

theorem orDefault_isSome (v : Option Rat) (d : Rat) (h : v.isSome = true) :
    orDefault v d = v := by
  cases v with
  | none => simp at h
  | some x => simp [orDefault]

/-- C6: default-filling is idempotent (applying it twice equals
applying it once) and non-destructive (a field already set keeps its
value, and the date strings are never changed). -/
theorem applyDefaults_idempotent_nondestructive (p : SimulationParams) :
    applyDefaults (applyDefaults p) = applyDefaults p ∧
    (p.ThermalMass.isSome = true → (applyDefaults p).ThermalMass = p.ThermalMass) ∧
    (p.ThermalMassKg.isSome = true → (applyDefaults p).ThermalMassKg = p.ThermalMassKg) ∧
    (p.CpMass.isSome = true → (applyDefaults p).CpMass = p.CpMass) ∧
    (p.VentilationRate.isSome = true → (applyDefaults p).VentilationRate = p.VentilationRate) ∧
    (p.U_day.isSome = true → (applyDefaults p).U_day = p.U_day) ∧
    (p.U_night.isSome = true → (applyDefaults p).U_night = p.U_night) ∧
    (p.A_glass.isSome = true → (applyDefaults p).A_glass = p.A_glass) ∧
    (p.tau_glass.isSome = true → (applyDefaults p).tau_glass = p.tau_glass) ∧
    (p.ACH.isSome = true → (applyDefaults p).ACH = p.ACH) ∧
    (p.Volume.isSome = true → (applyDefaults p).Volume = p.Volume) ∧
    (p.C.isSome = true → (applyDefaults p).C = p.C) ∧
    (p.T_init.isSome = true → (applyDefaults p).T_init = p.T_init) ∧
    (p.Setpoint.isSome = true → (applyDefaults p).Setpoint = p.Setpoint) ∧
    (p.Lat.isSome = true → (applyDefaults p).Lat = p.Lat) ∧
    (p.Lon.isSome = true → (applyDefaults p).Lon = p.Lon) ∧
    (p.HeaterMaxW.isSome = true → (applyDefaults p).HeaterMaxW = p.HeaterMaxW) ∧
    (p.EvapRate.isSome = true → (applyDefaults p).EvapRate = p.EvapRate) ∧
    (p.FractionSolarAir.isSome = true → (applyDefaults p).FractionSolarAir = p.FractionSolarAir) ∧
    (applyDefaults p).StartDate = p.StartDate ∧
    (applyDefaults p).EndDate = p.EndDate := by
  refine ⟨?_, fun _ => rfl, fun _ => rfl, ?_, fun _ => rfl, ?_, ?_, ?_, ?_, ?_,
    ?_, ?_, ?_, ?_, fun _ => rfl, fun _ => rfl, ?_, fun _ => rfl, ?_, rfl, rfl⟩
  · cases hC : p.C <;> cases hK : p.ThermalMassKg <;> ext <;>
      simp [applyDefaults_ThermalMass, applyDefaults_ThermalMassKg,
        applyDefaults_CpMass, applyDefaults_VentilationRate,
        applyDefaults_U_day, applyDefaults_U_night, applyDefaults_A_glass,
        applyDefaults_tau_glass, applyDefaults_ACH, applyDefaults_Volume,
        applyDefaults_C, applyDefaults_T_init, applyDefaults_Setpoint,
        applyDefaults_Lat, applyDefaults_Lon, applyDefaults_StartDate,
        applyDefaults_EndDate, applyDefaults_HeaterMaxW,
        applyDefaults_EvapRate, applyDefaults_FractionSolarAir,
        orDefault_getD, hC, hK]
  · exact fun h => (applyDefaults_CpMass p).trans (orDefault_isSome _ _ h)
  · exact fun h => (applyDefaults_U_day p).trans (orDefault_isSome _ _ h)
  · exact fun h => (applyDefaults_U_night p).trans (orDefault_isSome _ _ h)
  · exact fun h => (applyDefaults_A_glass p).trans (orDefault_isSome _ _ h)
  · exact fun h => (applyDefaults_tau_glass p).trans (orDefault_isSome _ _ h)
  · exact fun h => (applyDefaults_ACH p).trans (orDefault_isSome _ _ h)
  · exact fun h => (applyDefaults_Volume p).trans (orDefault_isSome _ _ h)
  · intro h
    rw [applyDefaults_C]
    cases hc : p.C with
    | none => rw [hc] at h; simp at h
    | some v => simp [hc]
  · exact fun h => (applyDefaults_T_init p).trans (orDefault_isSome _ _ h)
  · exact fun h => (applyDefaults_Setpoint p).trans (orDefault_isSome _ _ h)
  · exact fun h => (applyDefaults_HeaterMaxW p).trans (orDefault_isSome _ _ h)
  · exact fun h => (applyDefaults_FractionSolarAir p).trans (orDefault_isSome _ _ h)

/-- Witness for C6 at a concrete input with every field supplied:
default-filling changes nothing and is idempotent there. -/
theorem applyDefaults_idempotent_nondestructive_witness :
    applyDefaults (applyDefaults fullParams) = applyDefaults fullParams ∧
    fullParams.ThermalMass.isSome = true ∧
    (applyDefaults fullParams).ThermalMass = fullParams.ThermalMass ∧
    (applyDefaults fullParams).ThermalMassKg = fullParams.ThermalMassKg ∧
    (applyDefaults fullParams).CpMass = fullParams.CpMass ∧
    (applyDefaults fullParams).VentilationRate = fullParams.VentilationRate ∧
    (applyDefaults fullParams).U_day = fullParams.U_day ∧
    (applyDefaults fullParams).U_night = fullParams.U_night ∧
    (applyDefaults fullParams).A_glass = fullParams.A_glass ∧
    (applyDefaults fullParams).tau_glass = fullParams.tau_glass ∧
    (applyDefaults fullParams).ACH = fullParams.ACH ∧
    (applyDefaults fullParams).Volume = fullParams.Volume ∧
    (applyDefaults fullParams).C = fullParams.C ∧
    (applyDefaults fullParams).T_init = fullParams.T_init ∧
    (applyDefaults fullParams).Setpoint = fullParams.Setpoint ∧
    (applyDefaults fullParams).Lat = fullParams.Lat ∧
    (applyDefaults fullParams).Lon = fullParams.Lon ∧
    (applyDefaults fullParams).HeaterMaxW = fullParams.HeaterMaxW ∧
    (applyDefaults fullParams).EvapRate = fullParams.EvapRate ∧
    (applyDefaults fullParams).FractionSolarAir = fullParams.FractionSolarAir ∧
    (applyDefaults fullParams).StartDate = fullParams.StartDate ∧
    (applyDefaults fullParams).EndDate = fullParams.EndDate := by
  obtain ⟨h0, h1, h2, h3, h4, h5, h6, h7, h8, h9, h10, h11, h12, h13, h14,
    h15, h16, h17, h18, h19, h20⟩ := applyDefaults_idempotent_nondestructive fullParams
  exact ⟨h0, rfl, h1 rfl, h2 rfl, h3 rfl, h4 rfl, h5 rfl, h6 rfl, h7 rfl,
    h8 rfl, h9 rfl, h10 rfl, h11 rfl, h12 rfl, h13 rfl, h14 rfl, h15 rfl,
    h16 rfl, h17 rfl, h18 rfl, h19, h20⟩

/-- C9: default-filling leaves thermal_mass, thermal_mass_kg,
ventilation_rate, evap_rate, lat, lon, start_date and end_date
untouched, and gives C its default only when both C and
thermal_mass_kg are unset; with thermal_mass_kg supplied and C unset,
C stays unset. -/
theorem applyDefaults_C_guard (p : SimulationParams) :
    (applyDefaults p).ThermalMass = p.ThermalMass ∧
    (applyDefaults p).ThermalMassKg = p.ThermalMassKg ∧
    (applyDefaults p).VentilationRate = p.VentilationRate ∧
    (applyDefaults p).EvapRate = p.EvapRate ∧
    (applyDefaults p).Lat = p.Lat ∧
    (applyDefaults p).Lon = p.Lon ∧
    (applyDefaults p).StartDate = p.StartDate ∧
    (applyDefaults p).EndDate = p.EndDate ∧
    (p.C = none → p.ThermalMassKg ≠ none → (applyDefaults p).C = none) ∧
    (p.C = none → p.ThermalMassKg = none → (applyDefaults p).C = some 20000000) ∧
    (p.C ≠ none → (applyDefaults p).C = p.C) := by
  refine ⟨rfl, rfl, rfl, rfl, rfl, rfl, rfl, rfl, ?_, ?_, ?_⟩
  · intro h1 h2
    rw [applyDefaults_C]
    cases hk : p.ThermalMassKg with
    | none => exact absurd hk h2
    | some v => simp [h1, hk]
  · intro h1 h2
    rw [applyDefaults_C]
    simp [h1, h2]
  · intro h1
    rw [applyDefaults_C]
    cases hc : p.C with
    | none => exact absurd hc h1
    | some v => simp [hc]

/-- A request supplying thermal_mass_kg but not C, used as witness
input for C9. -/
def pKgOnly : SimulationParams := { emptyParams with ThermalMassKg := some 500 }

/-- Witness for C9 at concrete inputs: with only thermal_mass_kg
supplied, C stays unset; with neither supplied, C gets 2e7; with C
supplied, C is kept. -/
theorem applyDefaults_C_guard_witness :
    pKgOnly.C = none ∧
    pKgOnly.ThermalMassKg ≠ none ∧
    (applyDefaults pKgOnly).C = none ∧
    (applyDefaults pKgOnly).Lat = pKgOnly.Lat ∧
    (applyDefaults pKgOnly).ThermalMassKg = pKgOnly.ThermalMassKg ∧
    emptyParams.C = none ∧
    emptyParams.ThermalMassKg = none ∧
    (applyDefaults emptyParams).C = some 20000000 ∧
    fullParams.C ≠ none ∧
    (applyDefaults fullParams).C = fullParams.C := by
  obtain ⟨-, hTMK1, -, -, hLat1, -, -, -, h9a, -, -⟩ := applyDefaults_C_guard pKgOnly
  obtain ⟨-, -, -, -, -, -, -, -, -, h10b, -⟩ := applyDefaults_C_guard emptyParams
  obtain ⟨-, -, -, -, -, -, -, -, -, -, h11c⟩ := applyDefaults_C_guard fullParams
  exact ⟨rfl, by decide, h9a rfl (by decide), hLat1, hTMK1, rfl, rfl,
    h10b rfl rfl, by decide, h11c (by decide)⟩

theorem pushRecent_eq_take (l : List String) (id : String) :
    pushRecent l id = (id :: l).take 100 := rfl

theorem take_append_take (a b : List String) (k : Nat) :
    (a ++ b.take k).take k = (a ++ b).take k := by
  have hmin : min (k - a.length) k = k - a.length := Nat.min_eq_left (Nat.sub_le _ _)
  rw [List.take_append_eq_append_take, List.take_append_eq_append_take,
    List.take_take, hmin]

theorem foldl_pushRecent (ids : List String) (acc : List String)
    (h : acc.length ≤ 100) :
    ids.foldl pushRecent acc = (ids.reverse ++ acc).take 100 := by
  induction ids generalizing acc with
  | nil => simpa using (List.take_of_length_le h).symm
  | cons x xs ih =>
      rw [List.foldl_cons, ih (pushRecent acc x) ?_]
      · rw [pushRecent_eq_take, take_append_take]
        simp [List.append_assoc]
      · rw [pushRecent_eq_take]
        have := List.length_take 100 (x :: acc)
        omega

/-- One whole submission with every store write succeeding, as the
store transformer it induces. -/
def submitStep (s : Store) (id : String) : Store :=
  (simulateHandler s id 0 emptyParams
    ⟨WriteResult.ok, WriteResult.ok, WriteResult.ok⟩).store

/-- A sequence of submissions, in order, all writes succeeding. -/
def submitMany (st : Store) (ids : List String) : Store :=
  ids.foldl submitStep st

theorem submitStep_recent (s : Store) (id : String) :
    (submitStep s id).recent = pushRecent s.recent id := rfl

theorem submitMany_recent (ids : List String) (st : Store) :
    (submitMany st ids).recent = ids.foldl pushRecent st.recent := by
  induction ids generalizing st with
  | nil => rfl
  | cons x xs ih =>
      show (submitMany (submitStep st x) xs).recent = _
      rw [ih, submitStep_recent]
      rfl

/-- C8 (amended): after N+1 submissions, where N = 100 is the recency
cap, the stored recency index holds the last 100 ids but the
recent-jobs listing returns exactly 50 ids (the listing reads only
the first 50 entries), the most recently submitted first. -/
theorem recent_listing_after_cap_plus_one (ids : List String)
    (h : ids.length = RecentJobsMaxRetain + 1) :
    listRecent (submitMany emptyStore ids).recent = ids.reverse.take 50 ∧
    (listRecent (submitMany emptyStore ids).recent).length = 50 := by
  have h0 : emptyStore.recent = [] := rfl
  have hrec : (submitMany emptyStore ids).recent = ids.reverse.take 100 := by
    rw [submitMany_recent, h0, foldl_pushRecent ids [] (by simp)]
    simp
  have hlist : listRecent (submitMany emptyStore ids).recent = ids.reverse.take 50 := by
    rw [hrec]
    show ((ids.reverse.take 100).drop 0).take 50 = _
    rw [List.drop_zero, List.take_take]
    norm_num
  refine ⟨hlist, ?_⟩
  rw [hlist, List.length_take, List.length_reverse, h]
  unfold RecentJobsMaxRetain
  omega

/-- The 101 distinct ids used for the C8 counterexample and witness. -/
def idsC8 : List String := (List.range 101).map (fun i => toString i)

/-- Counterexample to C8 as stated: after N+1 = 101 submissions the
recent-jobs listing holds 50 ids, not N = 100 as claimed. -/
theorem recent_listing_counterexample :
    idsC8.length = RecentJobsMaxRetain + 1 ∧
    (listRecent (submitMany emptyStore idsC8).recent).length = 50 ∧
    (listRecent (submitMany emptyStore idsC8).recent).length ≠ RecentJobsMaxRetain := by
  have hlen : idsC8.length = RecentJobsMaxRetain + 1 := by
    simp [idsC8, RecentJobsMaxRetain]
  have hlen2 : idsC8.length = 101 := by simp [idsC8]
  have h0 : emptyStore.recent = [] := rfl
  have hrec : (submitMany emptyStore idsC8).recent = idsC8.reverse.take 100 := by
    rw [submitMany_recent, h0, foldl_pushRecent idsC8 [] (by simp)]
    simp
  have h50 : (listRecent (submitMany emptyStore idsC8).recent).length = 50 := by
    rw [hrec]
    show (((idsC8.reverse.take 100).drop 0).take 50).length = 50
    rw [List.drop_zero, List.take_take, List.length_take,
      List.length_reverse, hlen2]
    omega
  refine ⟨hlen, h50, ?_⟩
  simp [h50, RecentJobsMaxRetain]

/-- Witness for C8 (amended) at the concrete 101-id run. -/
theorem recent_listing_after_cap_plus_one_witness :
    idsC8.length = RecentJobsMaxRetain + 1 ∧
    listRecent (submitMany emptyStore idsC8).recent = idsC8.reverse.take 50 ∧
    (listRecent (submitMany emptyStore idsC8).recent).length = 50 := by
  have h : idsC8.length = RecentJobsMaxRetain + 1 := by
    simp [idsC8, RecentJobsMaxRetain]
  obtain ⟨h1, h2⟩ := recent_listing_after_cap_plus_one idsC8 h
  exact ⟨h, h1, h2⟩

end Greensim
